import Mathlib

/-!
Verification development for the pooling wrapper layer of
`src/python/paddle/nn/layer/pooling.py` and the pooling kernel it delegates to.

The Python file under `src/` contains only the thin wrapper classes: each
`__init__` stores configuration and each `forward` calls an external
functional implementation `F.*`.  The wrappers are embedded faithfully below
(structures holding exactly the attributes the `__init__` methods store, and
`forward` functions producing the argument record handed to `F.*`).  The
functional kernel itself is not part of `src/`; where a claim is decided by
the kernel, the kernel is modelled from the specification, and each such
definition carries a doc comment starting with `Modelled from the spec:`.
-/

namespace Pooling

/-- Ceiling division on naturals: `ceilN a b = ⌈a / b⌉` for `b > 0`. -/
def ceilN (a b : Nat) : Nat := (a + b - 1) / b

/-- The heterogeneous `padding` argument accepted by the wrappers
(pooling.py docstrings, forms 1-5): a named policy string, a single integer,
a per-dimension (or per-side) integer list, or explicit
`(pad_before, pad_after)` pairs. -/
inductive Padding where
  | str (s : String)
  | num (n : Nat)
  | list (l : List Nat)
  | pairs (l : List (Nat × Nat))
  deriving DecidableEq

/-- Configuration stored by `nn.AvgPool1d.__init__` (pooling.py lines 102-115). -/
structure AvgPool1d where
  kernel_size : Nat
  stride : Option Nat
  padding : Padding
  ceil_mode : Bool
  count_include_pad : Bool
  name : Option String
  deriving DecidableEq

/-- Configuration stored by `nn.AvgPool2d.__init__` (pooling.py lines 195-212). -/
structure AvgPool2d where
  ksize : Nat × Nat
  stride : Option (Nat × Nat)
  padding : Padding
  ceil_mode : Bool
  count_include_pad : Bool
  divisor : Option ℚ
  data_format : String
  name : Option String
  deriving DecidableEq

/-- Configuration stored by `nn.MaxPool1d.__init__` (pooling.py lines 386-399). -/
structure MaxPool1d where
  kernel_size : Nat
  stride : Option Nat
  padding : Padding
  ceil_mode : Bool
  return_indices : Bool
  name : Option String
  deriving DecidableEq

/-- Configuration stored by `nn.MaxPool2d.__init__` (pooling.py lines 482-497). -/
structure MaxPool2d where
  ksize : Nat × Nat
  stride : Option (Nat × Nat)
  padding : Padding
  return_indices : Bool
  ceil_mode : Bool
  data_format : String
  name : Option String
  deriving DecidableEq

/-- Configuration stored by `nn.MaxPool3d.__init__` (pooling.py lines 573-588). -/
structure MaxPool3d where
  ksize : Nat × Nat × Nat
  stride : Option (Nat × Nat × Nat)
  padding : Padding
  return_indices : Bool
  ceil_mode : Bool
  data_format : String
  name : Option String
  deriving DecidableEq

/-- Configuration stored by `nn.AdaptiveMaxPool3d.__init__`
(pooling.py lines 1049-1053); the source field names carry a leading
underscore (`_output_size`, `_return_indices`, `_name`). -/
structure AdaptiveMaxPool3d where
  _output_size : Nat × Nat × Nat
  _return_indices : Bool
  _name : Option String
  deriving DecidableEq

/-- Modelled from the spec: the argument record received by the external
functional implementation `F.avg_pool1d` (absent from `src/`); one field per
parameter of the call in `AvgPool1d.forward` (pooling.py lines 117-120). -/
structure FAvgPool1dArgs (X : Type) where
  x : X
  kernel_size : Nat
  stride : Option Nat
  padding : Padding
  count_include_pad : Bool
  ceil_mode : Bool
  name : Option String

/-- Modelled from the spec: the argument record received by `F.avg_pool2d`
(absent from `src/`), covering the keyword arguments of the call in
`AvgPool2d.forward` (pooling.py lines 214-224). -/
structure FAvgPool2dArgs (X : Type) where
  x : X
  kernel_size : Nat × Nat
  stride : Option (Nat × Nat)
  padding : Padding
  ceil_mode : Bool
  count_include_pad : Bool
  divisor_override : Option ℚ
  data_format : String
  name : Option String

/-- Modelled from the spec: the argument record received by `F.max_pool1d`
(absent from `src/`), covering the positional arguments of the call in
`MaxPool1d.forward` (pooling.py lines 401-404). -/
structure FMaxPool1dArgs (X : Type) where
  x : X
  kernel_size : Nat
  stride : Option Nat
  padding : Padding
  return_indices : Bool
  ceil_mode : Bool
  name : Option String

/-- Modelled from the spec: the full parameter list of `F.max_pool2d`
(absent from `src/`).  Per the spec the rounding flag `ceil_mode` is part of
every fixed-window pooling spec and floor rounding is the default, so the
functional parameter defaults to `false` when a caller omits it. -/
structure FMaxPool2dArgs (X : Type) where
  x : X
  kernel_size : Nat × Nat
  stride : Option (Nat × Nat)
  padding : Padding
  return_indices : Bool
  ceil_mode : Bool
  data_format : String
  name : Option String

/-- Modelled from the spec: the full parameter list of `F.max_pool3d`
(absent from `src/`); as for `F.max_pool2d`, `ceil_mode` defaults to `false`
when omitted by the caller. -/
structure FMaxPool3dArgs (X : Type) where
  x : X
  kernel_size : Nat × Nat × Nat
  stride : Option (Nat × Nat × Nat)
  padding : Padding
  return_indices : Bool
  ceil_mode : Bool
  data_format : String
  name : Option String

/-- Modelled from the spec: the argument record received by
`F.adaptive_max_pool3d` (absent from `src/`), covering the keyword arguments
of the call in `AdaptiveMaxPool3d.forward` (pooling.py lines 1055-1060). -/
structure FAdaptiveMaxPool3dArgs (X : Type) where
  x : X
  output_size : Nat × Nat × Nat
  return_indices : Bool
  name : Option String

/-- `AvgPool1d.forward` (pooling.py lines 117-120): passes `x` and the stored
`kernel_size`, `stride`, `padding`, `count_include_pad`, `ceil_mode`, `name`
positionally to `F.avg_pool1d`. -/
def AvgPool1d.forward {X : Type} (self : AvgPool1d) (x : X) : FAvgPool1dArgs X :=
  { x := x
    kernel_size := self.kernel_size
    stride := self.stride
    padding := self.padding
    count_include_pad := self.count_include_pad
    ceil_mode := self.ceil_mode
    name := self.name }

/-- `AvgPool2d.forward` (pooling.py lines 214-224): passes `x` and every
stored field as a keyword argument to `F.avg_pool2d`. -/
def AvgPool2d.forward {X : Type} (self : AvgPool2d) (x : X) : FAvgPool2dArgs X :=
  { x := x
    kernel_size := self.ksize
    stride := self.stride
    padding := self.padding
    ceil_mode := self.ceil_mode
    count_include_pad := self.count_include_pad
    divisor_override := self.divisor
    data_format := self.data_format
    name := self.name }

/-- `MaxPool1d.forward` (pooling.py lines 401-404): passes `input` and the
stored `kernel_size`, `stride`, `padding`, `return_indices`, `ceil_mode`,
`name` positionally to `F.max_pool1d`. -/
def MaxPool1d.forward {X : Type} (self : MaxPool1d) (input : X) : FMaxPool1dArgs X :=
  { x := input
    kernel_size := self.kernel_size
    stride := self.stride
    padding := self.padding
    return_indices := self.return_indices
    ceil_mode := self.ceil_mode
    name := self.name }

/-- `MaxPool2d.forward` (pooling.py lines 499-507): the call to
`F.max_pool2d` passes the keyword arguments `kernel_size`, `stride`,
`padding`, `return_indices`, `data_format` and `name` only; `ceil_mode` is
not among them, so the functional implementation receives its default value
`false` regardless of the stored `self.ceil_mode`. -/
def MaxPool2d.forward {X : Type} (self : MaxPool2d) (x : X) : FMaxPool2dArgs X :=
  { x := x
    kernel_size := self.ksize
    stride := self.stride
    padding := self.padding
    return_indices := self.return_indices
    ceil_mode := false
    data_format := self.data_format
    name := self.name }

/-- `MaxPool3d.forward` (pooling.py lines 590-598): the call to
`F.max_pool3d` passes the keyword arguments `kernel_size`, `stride`,
`padding`, `return_indices`, `data_format` and `name` only; `ceil_mode` is
not among them, so the functional implementation receives its default value
`false` regardless of the stored `self.ceil_mode`. -/
def MaxPool3d.forward {X : Type} (self : MaxPool3d) (x : X) : FMaxPool3dArgs X :=
  { x := x
    kernel_size := self.ksize
    stride := self.stride
    padding := self.padding
    return_indices := self.return_indices
    ceil_mode := false
    data_format := self.data_format
    name := self.name }

/-- `AdaptiveMaxPool3d.forward` (pooling.py lines 1055-1060): passes `x` and
the stored `_output_size`, `_return_indices`, `_name` as keyword arguments to
`F.adaptive_max_pool3d`. -/
def AdaptiveMaxPool3d.forward {X : Type} (self : AdaptiveMaxPool3d) (x : X) :
    FAdaptiveMaxPool3dArgs X :=
  { x := x
    output_size := self._output_size
    return_indices := self._return_indices
    name := self._name }

/-- State-passing form of `MaxPool1d.forward`: the Python method body
(pooling.py lines 401-404) contains no assignment to `self`, so the wrapper
state after the call is the wrapper state before it. -/
def MaxPool1d.forwardS {X : Type} (self : MaxPool1d) (input : X) :
    MaxPool1d × FMaxPool1dArgs X :=
  (self, self.forward input)

/-- State-passing form of `AvgPool2d.forward` (pooling.py lines 214-224):
the method body contains no assignment to `self`. -/
def AvgPool2d.forwardS {X : Type} (self : AvgPool2d) (x : X) :
    AvgPool2d × FAvgPool2dArgs X :=
  (self, self.forward x)

/-- State-passing form of `AdaptiveMaxPool3d.forward` (pooling.py lines
1055-1060): the method body contains no assignment to `self`. -/
def AdaptiveMaxPool3d.forwardS {X : Type} (self : AdaptiveMaxPool3d) (x : X) :
    AdaptiveMaxPool3d × FAdaptiveMaxPool3dArgs X :=
  (self, self.forward x)

/-- Modelled from the spec: the error taxonomy of the kernel engine (spec §7):
a `configuration` error for malformed specs, a `shape` error for non-positive
resolved output extents. -/
inductive PoolError where
  | configuration
  | shape
  deriving DecidableEq

/-- Modelled from the spec: `stride` defaults to `kernel` when unset
(spec §3, PoolSpec). -/
def resolveStride (stride : Option Nat) (kernel : Nat) : Nat :=
  stride.getD kernel

/-- Modelled from the spec: total `same` padding
`p = max(0, (ceil(I/s) - 1) * s + k - I)` (spec §4.1); natural subtraction
already truncates at zero. -/
def samePadTotal (I k s : Nat) : Nat :=
  (ceilN I s - 1) * s + k - I

/-- Modelled from the spec: `pad_before = p // 2` for `same` padding. -/
def samePadBefore (I k s : Nat) : Nat :=
  samePadTotal I k s / 2

/-- Modelled from the spec: `pad_after = p - pad_before` for `same` padding. -/
def samePadAfter (I k s : Nat) : Nat :=
  samePadTotal I k s - samePadBefore I k s

/-- Modelled from the spec: the raw non-adaptive output extent
`floor_or_ceil((I + pad_before + pad_after - k) / s) + 1`, ceiling when
`ceil_mode` is set and floor otherwise (spec §4.1). -/
def outExtentRaw (I k s pb pa : Nat) (ceil_mode : Bool) : Nat :=
  (if ceil_mode then ceilN (I + pb + pa - k) s else (I + pb + pa - k) / s) + 1

/-- Modelled from the spec: the resolved non-adaptive output extent; after
computing with ceiling, the extent is decremented by one when the last
window would start entirely within the trailing pad region, i.e. when its
start `(E-1)*s` in padded coordinates is at or past `pad_before + I`
(spec §4.1). -/
def outExtent (I k s pb pa : Nat) (ceil_mode : Bool) : Nat :=
  if ceil_mode ∧ I + pb ≤ (outExtentRaw I k s pb pa ceil_mode - 1) * s
  then outExtentRaw I k s pb pa ceil_mode - 1
  else outExtentRaw I k s pb pa ceil_mode

/-- Modelled from the spec: the number of real (in-bounds) input elements of
the fixed window of output index `o`: the window `[o*s - pb, o*s - pb + k)`
clipped to `[0, I)` (spec §4.2). -/
def windowRealCount (I k s pb o : Nat) : Nat :=
  (min ((o : Int) * (s : Int) - (pb : Int) + (k : Int)) (I : Int) -
    max ((o : Int) * (s : Int) - (pb : Int)) 0).toNat

/-- Modelled from the spec: reading the zero-padded input at padded
coordinate `j`: positions `[0, pb)` and `[pb + I, ...)` are padding slots
holding `0`, position `pb + i` holds input element `i` (spec §4.2). -/
def paddedGet (xs : List ℚ) (pb j : Nat) : ℚ :=
  if pb ≤ j ∧ j < pb + xs.length then xs.getD (j - pb) 0 else 0

/-- Modelled from the spec: the sum over the fixed window of output index
`o`, read from the zero-padded input in padded coordinates
`[o*s, o*s + k)` (spec §4.3, average mode). -/
def windowSum (xs : List ℚ) (pb k s o : Nat) : ℚ :=
  ∑ j ∈ Finset.Ico (o * s) (o * s + k), paddedGet xs pb j

/-- Modelled from the spec: the count of window slots of output index `o`
that are real input positions rather than padding (spec §4.3, the
`count_include_pad = false` denominator). -/
def windowCount (xs : List ℚ) (pb k s o : Nat) : Nat :=
  ((Finset.Ico (o * s) (o * s + k)).filter
    (fun j => pb ≤ j ∧ j < pb + xs.length)).card

/-- Modelled from the spec: the average-pool divisor rule (spec §4.3):
`divisor_override` when given, else the full kernel volume when
`count_include_pad` is set, else the count of in-bounds elements. -/
def avgPoolDivisor (k : Nat) (count_include_pad : Bool)
    (divisor_override : Option ℚ) (realCount : Nat) : ℚ :=
  match divisor_override with
  | some d => d
  | none => if count_include_pad then (k : ℚ) else (realCount : ℚ)

/-- Modelled from the spec: one output element of 1D average pooling:
the window sum over the zero-padded input divided by the divisor rule
(spec §4.3, average mode). -/
def avgPool1dOut (xs : List ℚ) (k s pb : Nat) (count_include_pad : Bool)
    (divisor_override : Option ℚ) (o : Nat) : ℚ :=
  windowSum xs pb k s o /
    avgPoolDivisor k count_include_pad divisor_override (windowCount xs pb k s o)

/-- The sum of the input elements whose padded coordinate falls inside the
window of output index `o` (the claim-side reading of "sum of the in-bounds
window elements"). -/
def inBoundsWindowSum (xs : List ℚ) (pb k s o : Nat) : ℚ :=
  ∑ i ∈ (Finset.range xs.length).filter
    (fun i => o * s ≤ pb + i ∧ pb + i < o * s + k), xs.getD i 0

/-- The number of input elements whose padded coordinate falls inside the
window of output index `o` (the claim-side reading of "count of in-bounds
(non-pad) elements"). -/
def inBoundsWindowCard (xs : List ℚ) (pb k s o : Nat) : Nat :=
  ((Finset.range xs.length).filter
    (fun i => o * s ≤ pb + i ∧ pb + i < o * s + k)).card

/-- Modelled from the spec: resolution of the 1D padding argument
(spec §3 and §4.1): `valid` means zero padding, `same` uses the `same`
formula and is rejected with a configuration error when combined with
`ceil_mode`, any other string is rejected, a number or one-element list is
symmetric padding, a two-element list is `[pad_before, pad_after]`, a single
explicit pair gives both sides, and longer lists are rejected. -/
def resolvePadding1d (padding : Padding) (I k s : Nat) (ceil_mode : Bool) :
    Except PoolError (Nat × Nat) :=
  match padding with
  | .str "valid" => .ok (0, 0)
  | .str "same" =>
      if ceil_mode then .error .configuration
      else .ok (samePadBefore I k s, samePadAfter I k s)
  | .str _ => .error .configuration
  | .num n => .ok (n, n)
  | .list l =>
      match l with
      | [n] => .ok (n, n)
      | [b, a] => .ok (b, a)
      | _ => .error .configuration
  | .pairs l =>
      match l with
      | [(b, a)] => .ok (b, a)
      | _ => .error .configuration

/-- Modelled from the spec: the full 1D average pooling kernel entry
(spec §4 and §6): resolve the stride default, resolve padding (failing fast
on a malformed spec, before any computation), resolve the output extent
(failing with a shape error when it is zero), then produce one averaged
element per output index. -/
def avg_pool1d (xs : List ℚ) (kernel_size : Nat) (stride : Option Nat)
    (padding : Padding) (count_include_pad : Bool) (ceil_mode : Bool)
    (divisor_override : Option ℚ) : Except PoolError (List ℚ) :=
  let s := resolveStride stride kernel_size
  match resolvePadding1d padding xs.length kernel_size s ceil_mode with
  | .error e => .error e
  | .ok (pb, pa) =>
      let O := outExtent xs.length kernel_size s pb pa ceil_mode
      if O = 0 then .error .shape
      else .ok ((List.range O).map
        (avgPool1dOut xs kernel_size s pb count_include_pad divisor_override))

/-- Modelled from the spec: adaptive window start
`floor(o * I / O)` (spec §4.2, adaptive mode). -/
def adaptiveStart (o I O : Nat) : Nat := o * I / O

/-- Modelled from the spec: adaptive window end
`ceil((o+1) * I / O)` (spec §4.2, adaptive mode). -/
def adaptiveEnd (o I O : Nat) : Nat := ceilN ((o + 1) * I) O

/-- Modelled from the spec: the 1D adaptive average pooling kernel over one
per-(batch,channel) spatial slice (spec §4.2 and §4.3): output `o` is the
sum of the inputs over `[adaptiveStart, adaptiveEnd)` divided by the window
length; no padding participates. -/
def adaptive_avg_pool1d (xs : List ℚ) (O : Nat) : List ℚ :=
  (List.range O).map fun o =>
    (∑ i ∈ Finset.Ico (adaptiveStart o xs.length O) (adaptiveEnd o xs.length O),
      xs.getD i 0) /
      ((adaptiveEnd o xs.length O - adaptiveStart o xs.length O : Nat) : ℚ)

/-- Modelled from the spec: the left-to-right max scan (spec §4.3, max mode):
the accumulator holds the best value and its flat offset so far; a later
element replaces it only when strictly greater, so the earliest position
achieving the maximum wins. -/
def scanMaxAux (get : Nat → ℚ) (acc : ℚ × Nat) : List Nat → ℚ × Nat
  | [] => acc
  | j :: rest =>
      scanMaxAux get (if acc.1 < get j then (get j, j) else acc) rest

/-- Modelled from the spec: scan a window (a list of flat offsets) and return
the maximum value together with the flat offset of the first element
achieving it (spec §4.3, max mode); an empty window yields a junk pair. -/
def scanMax (get : Nat → ℚ) : List Nat → ℚ × Nat
  | [] => (0, 0)
  | j :: rest => scanMaxAux get (get j, j) rest

/-- Modelled from the spec: the 1D adaptive max pooling kernel with index
tracking over one per-(batch,channel) spatial slice (spec §4.2 and §4.3):
each output is the scan of the adaptive window. -/
def adaptive_max_pool1d (xs : List ℚ) (O : Nat) : List (ℚ × Nat) :=
  (List.range O).map fun o =>
    scanMax (fun i => xs.getD i 0)
      (List.range' (adaptiveStart o xs.length O)
        (adaptiveEnd o xs.length O - adaptiveStart o xs.length O))

/-- Modelled from the spec: the in-bounds positions of a fixed window along
one dimension: indices `i` of `[0, I)` with `start ≤ i < start + k`, in
ascending scan order; `start = o*s - pad_before` may be negative (spec §4.2).
Padding never participates in max pooling (spec §4.3). -/
def clippedRange (start : Int) (k I : Nat) : List Nat :=
  (List.range I).filter (fun i => start ≤ (i : Int) ∧ (i : Int) < start + k)

/-- Modelled from the spec: the window of 2D max pooling at output position
`(oh, ow)` as a row-major list of flat offsets `h * W + w` within the
per-(batch,channel) spatial slice (spec §4.2: Cartesian product of the
per-dimension clipped ranges; spec §4.3: row-major flat offsets). -/
def maxPool2dWindow (H W kh kw sh sw ph pw oh ow : Nat) : List Nat :=
  (clippedRange ((oh : Int) * (sh : Int) - (ph : Int)) kh H).flatMap fun h =>
    (clippedRange ((ow : Int) * (sw : Int) - (pw : Int)) kw W).map fun w =>
      h * W + w

/-- Modelled from the spec: one output of 2D max pooling with index tracking:
the max scan of the mapped window over the flat input slice `ix`
(spec §4.3, max mode). -/
def max_pool2d_out (ix : Nat → ℚ) (H W kh kw sh sw ph pw oh ow : Nat) :
    ℚ × Nat :=
  scanMax ix (maxPool2dWindow H W kh kw sh sw ph pw oh ow)

/-- Modelled from the spec: resolution of the 2D padding argument
(spec §3 and §4.1), mirroring `resolvePadding1d` per spatial dimension:
a two-element list is per-dimension symmetric padding, a four-element list
is per-side padding, two explicit pairs are taken verbatim. -/
def resolvePadding2d (padding : Padding) (H W kh kw sh sw : Nat)
    (ceil_mode : Bool) : Except PoolError ((Nat × Nat) × (Nat × Nat)) :=
  match padding with
  | .str "valid" => .ok ((0, 0), (0, 0))
  | .str "same" =>
      if ceil_mode then .error .configuration
      else .ok ((samePadBefore H kh sh, samePadAfter H kh sh),
                (samePadBefore W kw sw, samePadAfter W kw sw))
  | .str _ => .error .configuration
  | .num n => .ok ((n, n), (n, n))
  | .list l =>
      match l with
      | [ph, pw] => .ok ((ph, ph), (pw, pw))
      | [pt, pb, pl, pr] => .ok ((pt, pb), (pl, pr))
      | _ => .error .configuration
  | .pairs l =>
      match l with
      | [(ht, hb), (wl, wr)] => .ok ((ht, hb), (wl, wr))
      | _ => .error .configuration

/-- Modelled from the spec: the full 2D max pooling kernel entry with index
tracking over one per-(batch,channel) flat slice (spec §4 and §6): resolve
the stride default and the padding (failing fast on a malformed spec),
resolve both output extents (failing with a shape error when either is
zero), then produce the grid of scanned windows. -/
def max_pool2d (ix : Nat → ℚ) (H W : Nat) (kernel_size : Nat × Nat)
    (stride : Option (Nat × Nat)) (padding : Padding) (ceil_mode : Bool) :
    Except PoolError (List (List (ℚ × Nat))) :=
  let s := stride.getD kernel_size
  match resolvePadding2d padding H W kernel_size.1 kernel_size.2 s.1 s.2
      ceil_mode with
  | .error e => .error e
  | .ok ((pht, phb), (pwl, pwr)) =>
      let OH := outExtent H kernel_size.1 s.1 pht phb ceil_mode
      let OW := outExtent W kernel_size.2 s.2 pwl pwr ceil_mode
      if OH = 0 ∨ OW = 0 then .error .shape
      else .ok ((List.range OH).map fun oh => (List.range OW).map fun ow =>
        max_pool2d_out ix H W kernel_size.1 kernel_size.2 s.1 s.2 pht pwl oh ow)

/-- A concrete 2×2 flat input slice used by closed witness statements. -/
def exampleInput : Nat → ℚ :=
  fun n => (([1, 5, 3, 2] : List ℚ).getD n 0)

/-- The max scan preserves the invariant that the tracked value is the input
element at the tracked flat offset. -/
theorem scanMaxAux_fst_eq_get (get : Nat → ℚ) (l : List Nat) :
    ∀ acc : ℚ × Nat, acc.1 = get acc.2 →
      (scanMaxAux get acc l).1 = get (scanMaxAux get acc l).2 := by
  induction l with
  | nil => intro acc h; exact h
  | cons j rest ih =>
      intro acc h
      simp only [scanMaxAux]
      apply ih
      by_cases hc : acc.1 < get j
      · rw [if_pos hc]
      · rw [if_neg hc]; exact h

/-- A fixed window has zero real input elements exactly when its start lies
at or beyond the end of the true input range, provided `pad_before < k`
and the input extent is positive. -/
theorem windowRealCount_eq_zero_iff (I k s pb o : Nat) (hpk : pb < k)
    (hI : 0 < I) : windowRealCount I k s pb o = 0 ↔ I + pb ≤ o * s := by
  have key : ∀ t : Int, 0 ≤ t →
      (((min (t - (pb : Int) + (k : Int)) (I : Int) -
        max (t - (pb : Int)) 0).toNat = 0) ↔ (I : Int) + (pb : Int) ≤ t) := by
    intro t ht
    have hpk' : (pb : Int) < (k : Int) := by exact_mod_cast hpk
    have hI' : (0 : Int) < (I : Int) := by exact_mod_cast hI
    rw [Int.toNat_eq_zero, min_def, max_def]
    split_ifs <;> omega
  have h0 : (0 : Int) ≤ (o : Int) * (s : Int) := by positivity
  unfold windowRealCount
  rw [key ((o : Int) * (s : Int)) h0]
  constructor <;> intro h <;> exact_mod_cast h

/-- The filtered window positions in padded coordinates are the image, under
the shift by `pad_before`, of the input positions falling in the window. -/
theorem window_filter_image (xs : List ℚ) (pb k s o : Nat) :
    (Finset.Ico (o * s) (o * s + k)).filter
        (fun j => pb ≤ j ∧ j < pb + xs.length) =
      Finset.image (fun i => pb + i)
        ((Finset.range xs.length).filter
          (fun i => o * s ≤ pb + i ∧ pb + i < o * s + k)) := by
  ext j
  simp only [Finset.mem_filter, Finset.mem_Ico, Finset.mem_image,
    Finset.mem_range]
  constructor
  · rintro ⟨⟨h1, h2⟩, h3, h4⟩
    exact ⟨j - pb, ⟨by omega, by omega, by omega⟩, by omega⟩
  · rintro ⟨i, ⟨hi, h1, h2⟩, rfl⟩
    exact ⟨⟨h1, h2⟩, by omega, by omega⟩

/-- The window sum over the zero-padded input equals the sum of the
in-bounds input elements of that window. -/
theorem windowSum_eq_inBounds (xs : List ℚ) (pb k s o : Nat) :
    windowSum xs pb k s o = inBoundsWindowSum xs pb k s o := by
  unfold windowSum inBoundsWindowSum paddedGet
  rw [← Finset.sum_filter, window_filter_image,
    Finset.sum_image (by intro a _ b _ h; omega)]
  apply Finset.sum_congr rfl
  intro i _
  congr 1
  omega

/-- The count of real window slots equals the count of input positions
falling inside the window. -/
theorem windowCount_eq_inBounds (xs : List ℚ) (pb k s o : Nat) :
    windowCount xs pb k s o = inBoundsWindowCard xs pb k s o := by
  unfold windowCount inBoundsWindowCard
  rw [window_filter_image,
    Finset.card_image_of_injective _ (fun a b h => by omega)]

/-- Adaptive window start with `output_size = input extent` is the output
index itself. -/
theorem adaptiveStart_self (I o : Nat) (ho : o < I) : adaptiveStart o I I = o := by
  unfold adaptiveStart
  exact Nat.mul_div_cancel o (by omega)

/-- Adaptive window end with `output_size = input extent` is the successor
of the output index. -/
theorem adaptiveEnd_self (I o : Nat) (ho : o < I) : adaptiveEnd o I I = o + 1 := by
  have hI : 0 < I := by omega
  unfold adaptiveEnd ceilN
  rw [Nat.mul_comm (o + 1) I, Nat.add_sub_assoc hI, Nat.mul_add_div hI,
    Nat.div_eq_of_lt (by omega)]

/-- C1: the claim states that every wrapper forwards all stored
configuration to `F.*`, and in particular that MaxPool2d and MaxPool3d
forward the stored `ceil_mode` to `F.max_pool2d` / `F.max_pool3d`.  The code
contradicts this (and its own docstrings): with `ceil_mode = true` stored,
both forward calls omit `ceil_mode`, so the functional layer receives the
default `false`. -/
theorem maxPool2d3d_forward_drops_ceil_mode :
    (MaxPool2d.mk (2, 2) (some (2, 2)) (Padding.num 0) false true "NCHW"
        none).ceil_mode = true ∧
    ((MaxPool2d.mk (2, 2) (some (2, 2)) (Padding.num 0) false true "NCHW"
        none).forward ()).ceil_mode = false ∧
    (MaxPool3d.mk (2, 2, 2) (some (2, 2, 2)) (Padding.num 0) false true
        "NCDHW" none).ceil_mode = true ∧
    ((MaxPool3d.mk (2, 2, 2) (some (2, 2, 2)) (Padding.num 0) false true
        "NCDHW" none).forward ()).ceil_mode = false :=
  ⟨rfl, rfl, rfl, rfl⟩

/-- C2: the non-adaptive output extent is `floor_or_ceil((I+pb+pa-k)/s)+1`
(ceiling when `ceil_mode` is set, floor otherwise), and with ceiling the
extent is decremented by one exactly when the last window contributes no
real input elements. -/
theorem outExtent_floor_or_ceil_decrement (I k s pb pa : Nat)
    (ceil_mode : Bool) (hpk : pb < k) (hI : 0 < I) :
    outExtent I k s pb pa ceil_mode =
      if ceil_mode ∧
          windowRealCount I k s pb (outExtentRaw I k s pb pa ceil_mode - 1) = 0
      then outExtentRaw I k s pb pa ceil_mode - 1
      else outExtentRaw I k s pb pa ceil_mode := by
  have hiff := windowRealCount_eq_zero_iff I k s pb
    (outExtentRaw I k s pb pa ceil_mode - 1) hpk hI
  unfold outExtent
  by_cases hc : ceil_mode ∧
      I + pb ≤ (outExtentRaw I k s pb pa ceil_mode - 1) * s
  · rw [if_pos hc, if_pos ⟨hc.1, hiff.mpr hc.2⟩]
  · rw [if_neg hc, if_neg (fun h => hc ⟨h.1, hiff.mp h.2⟩)]

/-- Witness for C2 at `I = 3, k = 2, s = 2, pb = pa = 1, ceil_mode = true`,
where the decrement fires: the raw ceiling extent is 3 and the resolved
extent is 2. -/
theorem outExtent_floor_or_ceil_decrement_witness :
    (1 < 2 ∧ 0 < 3) ∧
      outExtent 3 2 2 1 1 true =
        if (true : Bool) ∧
            windowRealCount 3 2 2 1 (outExtentRaw 3 2 2 1 1 true - 1) = 0
        then outExtentRaw 3 2 2 1 1 true - 1
        else outExtentRaw 3 2 2 1 1 true :=
  ⟨⟨by decide, by decide⟩,
    outExtent_floor_or_ceil_decrement 3 2 2 1 1 true (by decide) (by decide)⟩

/-- C3: combining `same` padding with `ceil_mode = true` yields a
configuration error before any computation (the kernel entries return the
error instead of any output), for average and max pooling alike. -/
theorem same_padding_ceil_mode_configuration_error :
    (∀ (xs : List ℚ) (kernel_size : Nat) (stride : Option Nat)
        (count_include_pad : Bool) (divisor_override : Option ℚ),
        avg_pool1d xs kernel_size stride (Padding.str "same")
          count_include_pad true divisor_override =
          .error .configuration) ∧
    (∀ (ix : Nat → ℚ) (H W : Nat) (kernel_size : Nat × Nat)
        (stride : Option (Nat × Nat)),
        max_pool2d ix H W kernel_size stride (Padding.str "same") true =
          .error .configuration) :=
  ⟨fun _ _ _ _ _ => rfl, fun _ _ _ _ _ => rfl⟩

/-- C9: leaving the stride unset makes the effective stride default to the
kernel size: the kernel entries give the same result for an unset stride as
for a stride explicitly equal to the kernel size. -/
theorem stride_defaults_to_kernel_size :
    (∀ (xs : List ℚ) (kernel_size : Nat) (padding : Padding)
        (count_include_pad ceil_mode : Bool) (divisor_override : Option ℚ),
        avg_pool1d xs kernel_size none padding count_include_pad ceil_mode
            divisor_override =
          avg_pool1d xs kernel_size (some kernel_size) padding
            count_include_pad ceil_mode divisor_override) ∧
    (∀ (ix : Nat → ℚ) (H W : Nat) (kernel_size : Nat × Nat)
        (padding : Padding) (ceil_mode : Bool),
        max_pool2d ix H W kernel_size none padding ceil_mode =
          max_pool2d ix H W kernel_size (some kernel_size) padding ceil_mode) :=
  ⟨fun _ _ _ _ _ _ => rfl, fun _ _ _ _ _ _ => rfl⟩

/-- C10: `forward` is pure delegation: in state-passing form the wrapper
configuration after the call equals the configuration stored at
construction, for every wrapper and every input. -/
theorem forward_preserves_configuration :
    (∀ (X : Type) (self : MaxPool1d) (input : X),
        (self.forwardS input).1 = self) ∧
    (∀ (X : Type) (self : AvgPool2d) (x : X), (self.forwardS x).1 = self) ∧
    (∀ (X : Type) (self : AdaptiveMaxPool3d) (x : X),
        (self.forwardS x).1 = self) :=
  ⟨fun _ _ _ => rfl, fun _ _ _ => rfl, fun _ _ _ => rfl⟩

/-- C4: each adaptive average pooling output `o` (for `0 ≤ o < O`, `O > 0`)
is the sum of the inputs over `[floor(o*I/O), ceil((o+1)*I/O))` divided by
the window length, and the window stays inside the input (no padding
participates). -/
theorem adaptive_avg_pool1d_window_formula (xs : List ℚ) (O o : Nat)
    (hO : 0 < O) (ho : o < O) :
    (adaptive_avg_pool1d xs O).getD o 0 =
      (∑ i ∈ Finset.Ico (adaptiveStart o xs.length O)
          (adaptiveEnd o xs.length O), xs.getD i 0) /
        ((adaptiveEnd o xs.length O - adaptiveStart o xs.length O : Nat) : ℚ) ∧
    adaptiveEnd o xs.length O ≤ xs.length := by
  constructor
  · unfold adaptive_avg_pool1d
    have hlen : o < ((List.range O).map (fun o =>
        (∑ i ∈ Finset.Ico (adaptiveStart o xs.length O)
          (adaptiveEnd o xs.length O), xs.getD i 0) /
          ((adaptiveEnd o xs.length O - adaptiveStart o xs.length O : Nat) :
            ℚ))).length := by
      simpa using ho
    rw [List.getD_eq_getElem _ _ hlen]
    simp
  · unfold adaptiveEnd ceilN
    rcases Nat.eq_zero_or_pos xs.length with hI | hI
    · rw [hI, Nat.mul_zero, Nat.zero_add, Nat.div_eq_of_lt (by omega)]
    · rw [Nat.div_le_iff_le_mul_add_pred hO]
      have h1 : (o + 1) * xs.length ≤ O * xs.length :=
        Nat.mul_le_mul_right _ ho
      omega

/-- Witness for C4 at `xs = [1,2,3], O = 2, o = 1`: the second output is
`(2 + 3) / 2` and the window `[1, 3)` stays inside the input. -/
theorem adaptive_avg_pool1d_window_formula_witness :
    (0 < 2 ∧ 1 < 2) ∧
      ((adaptive_avg_pool1d [1, 2, 3] 2).getD 1 0 =
        (∑ i ∈ Finset.Ico (adaptiveStart 1 ([1, 2, 3] : List ℚ).length 2)
            (adaptiveEnd 1 ([1, 2, 3] : List ℚ).length 2),
          ([1, 2, 3] : List ℚ).getD i 0) /
          ((adaptiveEnd 1 ([1, 2, 3] : List ℚ).length 2 -
            adaptiveStart 1 ([1, 2, 3] : List ℚ).length 2 : Nat) : ℚ) ∧
      adaptiveEnd 1 ([1, 2, 3] : List ℚ).length 2 ≤
        ([1, 2, 3] : List ℚ).length) :=
  ⟨⟨by decide, by decide⟩,
    adaptive_avg_pool1d_window_formula [1, 2, 3] 2 1 (by decide) (by decide)⟩

/-- C5: for max pooling with index tracking, reading the input at the
reported flat offset reproduces the reported max value, at every output
position whose window is nonempty. -/
theorem max_pool2d_gather_reproduces_max (ix : Nat → ℚ)
    (H W kh kw sh sw ph pw oh ow : Nat)
    (hne : maxPool2dWindow H W kh kw sh sw ph pw oh ow ≠ []) :
    (max_pool2d_out ix H W kh kw sh sw ph pw oh ow).1 =
      ix (max_pool2d_out ix H W kh kw sh sw ph pw oh ow).2 := by
  unfold max_pool2d_out
  cases hW : maxPool2dWindow H W kh kw sh sw ph pw oh ow with
  | nil => exact absurd hW hne
  | cons j rest =>
      simp only [scanMax]
      exact scanMaxAux_fst_eq_get ix rest (ix j, j) rfl

/-- Witness for C5 on the concrete 2×2 slice `[1, 5, 3, 2]` with a 2×2
window at output position (0,0): the reported max is the element at the
reported flat offset. -/
theorem max_pool2d_gather_reproduces_max_witness :
    maxPool2dWindow 2 2 2 2 2 2 0 0 0 0 ≠ [] ∧
      (max_pool2d_out exampleInput 2 2 2 2 2 2 0 0 0 0).1 =
        exampleInput (max_pool2d_out exampleInput 2 2 2 2 2 2 0 0 0 0).2 :=
  ⟨by decide,
    max_pool2d_gather_reproduces_max exampleInput 2 2 2 2 2 2 0 0 0 0
      (by decide)⟩

/-- C6: each average pooling output equals the sum of the in-bounds window
elements divided by `divisor_override` when given, else by the full kernel
volume when `count_include_pad` is set, else by the count of in-bounds
elements of that window. -/
theorem avg_pool_divisor_rule (xs : List ℚ) (k s pb : Nat)
    (count_include_pad : Bool) (divisor_override : Option ℚ) (o : Nat) :
    avgPool1dOut xs k s pb count_include_pad divisor_override o =
      inBoundsWindowSum xs pb k s o /
        (match divisor_override with
         | some d => d
         | none =>
             if count_include_pad then (k : ℚ)
             else (inBoundsWindowCard xs pb k s o : ℚ)) := by
  unfold avgPool1dOut avgPoolDivisor
  rw [windowSum_eq_inBounds, windowCount_eq_inBounds]

/-- C7: adaptive pooling with `output_size` equal to the input extent is the
identity, in average mode and in max mode alike. -/
theorem adaptive_pool_full_size_identity (xs : List ℚ) :
    adaptive_avg_pool1d xs xs.length = xs ∧
      (adaptive_max_pool1d xs xs.length).map Prod.fst = xs := by
  constructor
  · apply List.ext_getElem
    · simp [adaptive_avg_pool1d]
    · intro o h1 h2
      simp only [adaptive_avg_pool1d, List.getElem_map, List.getElem_range]
      rw [adaptiveStart_self _ _ h2, adaptiveEnd_self _ _ h2]
      rw [Finset.sum_Ico_eq_sum_range, show o + 1 - o = 1 from by omega]
      rw [Finset.sum_range_one, Nat.add_zero, Nat.cast_one, div_one]
      exact List.getD_eq_getElem xs 0 h2
  · apply List.ext_getElem
    · simp [adaptive_max_pool1d]
    · intro o h1 h2
      simp only [adaptive_max_pool1d, List.getElem_map, List.getElem_range]
      rw [adaptiveStart_self _ _ h2, adaptiveEnd_self _ _ h2,
        show o + 1 - o = 1 from by omega, List.range'_one]
      simp only [scanMax, scanMaxAux]
      exact List.getD_eq_getElem xs 0 h2

/-- C8: `same` padding with stride 1 and an odd kernel size preserves the
spatial extent: the resolved output extent equals the input extent. -/
theorem same_padding_stride_one_preserves_extent (I k : Nat) (hI : 0 < I)
    (hk : k % 2 = 1) :
    outExtent I k 1 (samePadBefore I k 1) (samePadAfter I k 1) false = I := by
  have htot : samePadTotal I k 1 = k - 1 := by
    unfold samePadTotal ceilN
    simp only [Nat.add_sub_cancel, Nat.div_one, Nat.mul_one]
    omega
  have hb : samePadBefore I k 1 = (k - 1) / 2 := by
    unfold samePadBefore; rw [htot]
  have ha : samePadAfter I k 1 = k - 1 - (k - 1) / 2 := by
    unfold samePadAfter samePadBefore; rw [htot]
  unfold outExtent outExtentRaw
  rw [if_neg (by simp)]
  rw [if_neg (by simp)]
  rw [hb, ha]
  omega

/-- Witness for C8 at `I = 5, k = 3`: a `same`-padded stride-1 pool with an
odd kernel keeps the extent at 5. -/
theorem same_padding_stride_one_preserves_extent_witness :
    (0 < 5 ∧ 3 % 2 = 1) ∧
      outExtent 5 3 1 (samePadBefore 5 3 1) (samePadAfter 5 3 1) false = 5 :=
  ⟨⟨by decide, by decide⟩,
    same_padding_stride_one_preserves_extent 5 3 (by decide) (by decide)⟩

end Pooling
